import Mathlib

/-!
Shallow embedding of `src/servidor_dbstream.py`, a Flask routing/relay server
for media streams, together with proofs about its URL classifier
(`can_use_direct`), its validation cache (`url_cache` / `is_valid_stream_url`),
and its three HTTP handlers (`direct_redirect`, `validate_url`, `proxy`).

Modelling conventions:
* URLs, headers and error messages are Lean `String`s; Python `str.lower()` is
  `pyLower` (character-wise `Char.toLower`, which agrees with Python on the
  ASCII patterns the program uses).
* The global dict `url_cache`, keyed by `hashlib.md5(url).hexdigest()`, is
  modelled as an association list keyed by the URL itself: the digest is
  deterministic and collisions are an accepted non-issue, so the key function
  is abstracted as injective.
* `time.time()` is an abstract `Nat` timestamp passed to each call.
* Network I/O (`urllib.request.urlopen`) is an oracle value passed to the
  handler: a probe outcome for HEAD requests, an `UpstreamResult` for the
  proxy's GET.  Each handler outcome records whether the oracle was consumed
  (`probed` / `requested`), which models "a network call was made".
* Python dicts of headers are association lists with dict-update semantics
  (`headerSet` replaces in place or appends).
-/

namespace DBStream

/-- Python `str.lower()` (ASCII-faithful, character-wise). -/
def pyLower (s : String) : String := ⟨s.data.map Char.toLower⟩

/-- Substring occurrence on character lists: Python's `pat in s`. -/
def isSubstr (pat : List Char) : List Char → Bool
  | [] => pat.isEmpty
  | c :: t => pat.isPrefixOf (c :: t) || isSubstr pat t

/-- Python `pat in s` on strings. -/
def strContains (s pat : String) : Bool := isSubstr pat.data s.data

/-- Python `s.endswith(suf)`. -/
def strEndsWith (s suf : String) : Bool := List.isSuffixOf suf.data s.data

/-- The forbidden pattern list of `can_use_direct` (lines 222-226). -/
def forbidden_patterns : List String :=
  [".mkv", ".avi", ".mp4",
   "/movie/", "/serie/",
   "e98asvyr.okfsdo.xyz", "kcdrdbcx.upne.xyz"]

/-- The direct-compatible extension list of `can_use_direct` (lines 233-236). -/
def direct_compatible : List String :=
  [".m3u8", ".ts"]

/-- `can_use_direct(url)` (lines 217-238): `False` as soon as any forbidden
pattern occurs in `url.lower()`, otherwise `True` iff `url.lower()` ends with a
direct-compatible extension. -/
def can_use_direct (url : String) : Bool :=
  if forbidden_patterns.any (fun pat => strContains (pyLower url) pat) then
    false
  else
    direct_compatible.any (fun ext => strEndsWith (pyLower url) ext)

/-- `url_cache` (line 23): URL (standing for its md5 digest) to
`(cached_time, is_valid)`. -/
abbrev Cache := List (String × (Nat × Bool))

/-- `CACHE_TTL = 300` (line 24). -/
def CACHE_TTL : Nat := 300

/-- Dict membership plus read: `url_cache[url_hash]` when present. -/
def cacheLookup : Cache → String → Option (Nat × Bool)
  | [], _ => none
  | (k, v) :: t, url => if k = url then some v else cacheLookup t url

/-- Dict assignment `url_cache[url_hash] = v` (overwrite or insert). -/
def cacheRecord : Cache → String → Nat × Bool → Cache
  | [], url, v => [(url, v)]
  | (k, w) :: t, url, v =>
      if k = url then (url, v) :: t else (k, w) :: cacheRecord t url v

/-- `is_valid_stream_url(url)` (lines 193-215).  Besides the boolean result it
returns the updated cache and whether the HEAD probe was actually issued
(`probeOk` is the oracle for what `urlopen` would report). -/
def is_valid_stream_url (url : String) (now : Nat) (cache : Cache)
    (probeOk : Bool) : Bool × Cache × Bool :=
  match cacheLookup cache url with
  | some (cachedTime, isValid) =>
      if now - cachedTime < CACHE_TTL then (isValid, cache, false)
      else (probeOk, cacheRecord cache url (now, probeOk), true)
  | none => (probeOk, cacheRecord cache url (now, probeOk), true)

/-- The shared 400 body text for a missing `url` parameter (lines 47, 76, 106). -/
def URL_REQUIRED : String := "Parámetro 'url' requerido"

/-- Uppercase hexadecimal digits, for percent-encoding. -/
def hexDigits : List Char :=
  ['0', '1', '2', '3', '4', '5', '6', '7', '8', '9', 'A', 'B', 'C', 'D', 'E', 'F']

/-- `%XX` percent-escape of one byte value. -/
def pctByte (n : Nat) : String :=
  ⟨['%', hexDigits.getD (n / 16 % 16) '0', hexDigits.getD (n % 16) '0']⟩

/-- UTF-8 byte sequence of a character, as byte values. -/
def utf8Bytes (c : Char) : List Nat :=
  let n := c.toNat
  if n < 0x80 then [n]
  else if n < 0x800 then
    [0xC0 ||| (n >>> 6), 0x80 ||| (n &&& 0x3F)]
  else if n < 0x10000 then
    [0xE0 ||| (n >>> 12), 0x80 ||| ((n >>> 6) &&& 0x3F), 0x80 ||| (n &&& 0x3F)]
  else
    [0xF0 ||| (n >>> 18), 0x80 ||| ((n >>> 12) &&& 0x3F),
     0x80 ||| ((n >>> 6) &&& 0x3F), 0x80 ||| (n &&& 0x3F)]

/-- Characters `urllib.parse.quote` leaves unescaped with the default
`safe='/'`: ASCII letters, digits, `_.-~` and `/`. -/
def quoteSafe (c : Char) : Bool :=
  ('a' ≤ c && c ≤ 'z') || ('A' ≤ c && c ≤ 'Z') || ('0' ≤ c && c ≤ '9') ||
  c = '_' || c = '.' || c = '-' || c = '~' || c = '/'

/-- `urllib.parse.quote(url)` with default arguments. -/
def quote (s : String) : String :=
  String.join (s.data.map (fun c =>
    if quoteSafe c then String.singleton c
    else String.join ((utf8Bytes c).map pctByte)))

/-- JSON body of a 400 answer from `/direct`: an `error` field and the
optional `suggestion` / `proxy_url` / `reason` fields (lines 47, 55-60, 64). -/
structure DirectErrorBody where
  error : String
  suggestion : Option String
  proxy_url : Option String
  reason : Option String
deriving DecidableEq, Repr

/-- Response of the `/direct` handler: 400 with a JSON body, or a 302
redirect (line 69). -/
inductive DirectResponse where
  | badRequest (body : DirectErrorBody)
  | redirect (location : String)
deriving DecidableEq, Repr

/-- HTTP status of a `/direct` response. -/
def DirectResponse.status : DirectResponse → Nat
  | .badRequest _ => 400
  | .redirect _ => 302

/-- Outcome of one `/direct` request: the response, the cache afterwards, and
whether a HEAD probe was issued. -/
structure DirectOutcome where
  response : DirectResponse
  cache : Cache
  probed : Bool
deriving DecidableEq, Repr

/-- The inline forbidden check of `direct_redirect` (lines 50-52).  Note it
lists `/movie/` but NOT `/serie/`, unlike `forbidden_patterns`. -/
def direct_forbidden (url : String) : Bool :=
  strContains (pyLower url) ".mkv" || strContains (pyLower url) ".avi" ||
  strContains (pyLower url) ".mp4" || strContains (pyLower url) "/movie/" ||
  strContains (pyLower url) "e98asvyr.okfsdo.xyz" ||
  strContains (pyLower url) "kcdrdbcx.upne.xyz"

/-- `direct_redirect()` (lines 42-69).  `urlParam` is
`request.args.get("url")`; `probeOk` is the oracle for the HEAD probe that
`is_valid_stream_url` may issue. -/
def direct_redirect (urlParam : Option String) (now : Nat) (cache : Cache)
    (probeOk : Bool) : DirectOutcome :=
  match urlParam with
  | none => ⟨.badRequest ⟨URL_REQUIRED, none, none, none⟩, cache, false⟩
  | some url =>
    if url = "" then ⟨.badRequest ⟨URL_REQUIRED, none, none, none⟩, cache, false⟩
    else if direct_forbidden url then
      ⟨.badRequest ⟨"Este tipo de archivo requiere proxy tradicional",
          some "use_proxy",
          some ("/proxy?url=" ++ quote url),
          some "Archivos .mkv/.avi/.mp4 y URLs de películas necesitan headers específicos"⟩,
        cache, false⟩
    else
      let r := is_valid_stream_url url now cache probeOk
      if r.1 then ⟨.redirect url, r.2.1, r.2.2⟩
      else ⟨.badRequest ⟨"URL no válida o inaccesible", none, none, none⟩, r.2.1, r.2.2⟩

/-- Outcome of the HEAD probe issued by `/validate` (lines 80-85): on success
the `Content-Type` / `Content-Length` headers as `urlopen` reports them
(`none` = header absent), otherwise the exception text. -/
inductive ProbeResult where
  | ok (content_type : Option String) (content_length : Option String)
  | err (msg : String)
deriving DecidableEq, Repr

/-- Response of the `/validate` handler (lines 76, 87-92, 96-99). -/
inductive ValidateResponse where
  | badRequest (error : String)
  | valid (url content_type content_length : String)
  | invalid (error : String)
deriving DecidableEq, Repr

/-- HTTP status of a `/validate` response: only the `valid` case is 200. -/
def ValidateResponse.status : ValidateResponse → Nat
  | .badRequest _ => 400
  | .valid _ _ _ => 200
  | .invalid _ => 400

/-- Outcome of one `/validate` request: response, the cache afterwards, and
whether the HEAD probe was issued. -/
structure ValidateOutcome where
  response : ValidateResponse
  cache : Cache
  probed : Bool
deriving DecidableEq, Repr

/-- `validate_url()` (lines 71-99).  `getheader("Content-Type", "")` defaults
to `""` and `getheader("Content-Length", "unknown")` to `"unknown"` only when
the header is absent. -/
def validate_url (urlParam : Option String) (cache : Cache)
    (probe : ProbeResult) : ValidateOutcome :=
  match urlParam with
  | none => ⟨.badRequest URL_REQUIRED, cache, false⟩
  | some url =>
    if url = "" then ⟨.badRequest URL_REQUIRED, cache, false⟩
    else
      match probe with
      | .ok ct cl => ⟨.valid url (ct.getD "") (cl.getD "unknown"), cache, true⟩
      | .err msg => ⟨.invalid msg, cache, true⟩

/-- Dict read with default `none`: `headers.get(k)` on an association list. -/
def headerLookup : List (String × String) → String → Option String
  | [], _ => none
  | (k, v) :: t, key => if k = key then some v else headerLookup t key

/-- Dict assignment `headers[k] = v`: overwrite in place or append. -/
def headerSet : List (String × String) → String → String → List (String × String)
  | [], key, v => [(key, v)]
  | (k, w) :: t, key, v =>
      if k = key then (key, v) :: t else (k, w) :: headerSet t key v

/-- The fixed default header dict of `proxy()` (lines 111-117), in insertion
order. -/
def default_headers : List (String × String) :=
  [("User-Agent", "VLC/3.0.18 LibVLC/3.0.18"),
   ("Accept", "*/*"),
   ("Accept-Language", "es-ES,es;q=0.9,en;q=0.8"),
   ("Connection", "keep-alive"),
   ("Cache-Control", "no-cache")]

/-- Python truthiness of an optional header value: `None` and `""` are falsy. -/
def hdrTruthy : Option String → Bool
  | none => false
  | some s => !(s = "")

/-- The domain-conditional `Referer`/`Origin` overrides of `proxy()`
(lines 119-131) — note the matching is `'kcdrdbcx.upne.xyz' in url` /
`elif 'e98asvyr.okfsdo.xyz' in url` on the RAW url, without `.lower()`. -/
def domain_headers (url : String) : List (String × String) :=
  if strContains url "kcdrdbcx.upne.xyz" then
    headerSet (headerSet default_headers "Referer" "https://185.233.16.71/")
      "Origin" "https://185.233.16.71"
  else if strContains url "e98asvyr.okfsdo.xyz" then
    headerSet (headerSet default_headers "Referer" "http://185.233.16.71/")
      "Origin" "http://185.233.16.71"
  else default_headers

/-- The upstream request headers `proxy()` builds (lines 111-137): defaults,
the domain-conditional overrides, then `headers['Range'] = range_header` when
the client's `Range` value is truthy (lines 133-136). -/
def build_proxy_headers (url : String) (range_header : Option String) :
    List (String × String) :=
  match range_header with
  | some r => if r = "" then domain_headers url else headerSet (domain_headers url) "Range" r
  | none => domain_headers url

/-- The origin's reply to the proxied GET, as seen through `urlopen`:
status code, the four relayed headers (`none` = absent), and the body bytes. -/
structure OriginResponse where
  code : Nat
  content_type : Option String
  content_length : Option String
  accept_ranges : Option String
  content_range : Option String
  body : List Nat
deriving DecidableEq, Repr

/-- Result of `urllib.request.urlopen` in `proxy()` (lines 140-141 and the
handlers at 183-191): success, `HTTPError(code, reason)`, `URLError(reason)`,
or any other exception. -/
inductive UpstreamResult where
  | success (resp : OriginResponse)
  | httpError (code : Nat) (reason : String)
  | urlError (reason : String)
  | otherError (msg : String)
deriving DecidableEq, Repr

/-- `chunk_size = 32768` (line 150). -/
def chunk_size : Nat := 32768

/-- The read loop of `generate()` (lines 153-158): repeatedly
`response.read(szPred + 1)` until an empty read.  The chunk size is carried as
its predecessor so that it is positive by construction. -/
def readLoop (szPred : Nat) (body : List Nat) : List (List Nat) :=
  match body with
  | [] => []
  | c :: rest => ((c :: rest).take (szPred + 1)) :: readLoop szPred (rest.drop szPred)
termination_by body.length
decreasing_by simp; omega

/-- `generate()` (lines 148-165): the list of chunks the streaming generator
yields for a given origin body. -/
def generate (body : List Nat) : List (List Nat) := readLoop (chunk_size - 1) body

/-- One step of the passthrough loop (lines 172-175): set `headers[k] = v`
when the origin's header value `v` is truthy, else leave the dict alone. -/
def passHeader (h : List (String × String)) (k : String) :
    Option String → List (String × String)
  | none => h
  | some v => if v = "" then h else headerSet h k v

/-- The headers set on the Flask `Response` (lines 167-175): CORS and
`Cache-Control` first, then passthrough of `Content-Length`, `Accept-Ranges`
and `Content-Range` when the origin sent a truthy value. -/
def respHeadersFor (resp : OriginResponse) : List (String × String) :=
  passHeader
    (passHeader
      (passHeader [("Access-Control-Allow-Origin", "*"), ("Cache-Control", "no-cache")]
        "Content-Length" resp.content_length)
      "Accept-Ranges" resp.accept_ranges)
    "Content-Range" resp.content_range

/-- Response of the `/proxy` handler: a JSON error with its status code
(400 / 502 / 500), or the streamed response with status, content type,
response headers and yielded chunks. -/
inductive ProxyResponse where
  | json (status : Nat) (error : String)
  | stream (status : Nat) (content_type : String)
      (headers : List (String × String)) (chunks : List (List Nat))
deriving DecidableEq, Repr

/-- HTTP status of a `/proxy` response. -/
def ProxyResponse.statusOf : ProxyResponse → Nat
  | .json s _ => s
  | .stream s _ _ _ => s

/-- A response header of a `/proxy` response (JSON errors carry none of the
relayed headers). -/
def ProxyResponse.headerOf : ProxyResponse → String → Option String
  | .json _ _, _ => none
  | .stream _ _ hs _, k => headerLookup hs k

/-- The chunk list of a streamed `/proxy` response, when it is one. -/
def ProxyResponse.chunksOf : ProxyResponse → Option (List (List Nat))
  | .json _ _ => none
  | .stream _ _ _ cs => some cs

/-- Outcome of one `/proxy` request: the response, whether the upstream GET
was issued, and the headers sent upstream (empty when no request was made). -/
structure ProxyOutcome where
  response : ProxyResponse
  requested : Bool
  reqHeaders : List (String × String)
deriving DecidableEq, Repr

/-- `proxy()` (lines 101-191).  `range_header` is
`request.headers.get('Range')`; `upstream` is the oracle for what `urlopen`
does with the built request.  The client-visible status is 206 exactly when
the client's `Range` was truthy and the origin returned 206 (line 178),
otherwise Flask's default 200. -/
def proxy (urlParam : Option String) (range_header : Option String)
    (upstream : UpstreamResult) : ProxyOutcome :=
  match urlParam with
  | none => ⟨.json 400 URL_REQUIRED, false, []⟩
  | some url =>
    if url = "" then ⟨.json 400 URL_REQUIRED, false, []⟩
    else
      let headers := build_proxy_headers url range_header
      match upstream with
      | .success resp =>
          ⟨.stream (if hdrTruthy range_header && (resp.code == 206) then 206 else 200)
              (resp.content_type.getD "application/octet-stream")
              (respHeadersFor resp) (generate resp.body),
            true, headers⟩
      | .httpError code reason =>
          ⟨.json 502 ("Error HTTP " ++ toString code ++ ": " ++ reason), true, headers⟩
      | .urlError reason =>
          ⟨.json 502 ("Error de conexión: " ++ reason), true, headers⟩
      | .otherError _ =>
          ⟨.json 500 "Error interno en el proxy", true, headers⟩

/-! ## Helper lemmas -/

/-- A freshly recorded cache entry is found by lookup under the same key. -/
theorem cacheLookup_cacheRecord_self (c : Cache) (url : String) (v : Nat × Bool) :
    cacheLookup (cacheRecord c url v) url = some v := by
  induction c with
  | nil => simp [cacheRecord, cacheLookup]
  | cons kv t ih =>
      obtain ⟨k, w⟩ := kv
      by_cases h : k = url
      · simp [cacheRecord, cacheLookup, h]
      · simp [cacheRecord, cacheLookup, h, ih]

/-- Dict update then read of the same key yields the written value. -/
theorem headerLookup_headerSet_self (h : List (String × String)) (k v : String) :
    headerLookup (headerSet h k v) k = some v := by
  induction h with
  | nil => simp [headerSet, headerLookup]
  | cons kv t ih =>
      obtain ⟨k', w⟩ := kv
      by_cases hk : k' = k
      · simp [headerSet, headerLookup, hk]
      · simp [headerSet, headerLookup, hk, ih]

/-- Dict update leaves reads of other keys unchanged. -/
theorem headerLookup_headerSet_ne (h : List (String × String)) (k k' v : String)
    (hne : k' ≠ k) : headerLookup (headerSet h k' v) k = headerLookup h k := by
  induction h with
  | nil => simp [headerSet, headerLookup, hne]
  | cons kv t ih =>
      obtain ⟨k'', w⟩ := kv
      by_cases hk : k'' = k'
      · subst hk; simp [headerSet, headerLookup, hne]
      · by_cases hk2 : k'' = k <;>
          simp [headerSet, headerLookup, hk, hk2, ih, Ne.symm hne]

/-- Concatenating the chunks produced by the read loop restores the body. -/
theorem readLoop_flatten (szPred : Nat) (body : List Nat) :
    (readLoop szPred body).flatten = body := by
  have key : ∀ n : Nat, ∀ b : List Nat, b.length = n →
      (readLoop szPred b).flatten = b := by
    intro n
    induction n using Nat.strong_induction_on with
    | _ n ih =>
      intro b hn
      match b with
      | [] => simp [readLoop]
      | c :: rest =>
        rw [readLoop]
        have hlt : (rest.drop szPred).length < n := by
          rw [← hn]
          simp [List.length_drop]
          omega
        have hrec := ih (rest.drop szPred).length hlt (rest.drop szPred) rfl
        simp only [List.take_succ_cons, List.flatten_cons, List.cons_append, hrec]
        rw [List.take_append_drop]
  exact key body.length body rfl

/-- A passthrough step stores exactly the origin's value when that value is
not the empty string and the key was previously unset. -/
theorem headerLookup_passHeader_self (h : List (String × String)) (k : String)
    (v : Option String) (hv : v ≠ some "") (h0 : headerLookup h k = none) :
    headerLookup (passHeader h k v) k = v := by
  cases v with
  | none => exact h0
  | some s =>
      have hs : ¬ s = "" := fun hc => hv (by rw [hc])
      simp only [passHeader, if_neg hs]
      exact headerLookup_headerSet_self h k s

/-- A passthrough step for one key does not change reads of another key. -/
theorem headerLookup_passHeader_ne (h : List (String × String)) (k k' : String)
    (v : Option String) (hne : k' ≠ k) :
    headerLookup (passHeader h k' v) k = headerLookup h k := by
  cases v with
  | none => rfl
  | some s =>
      simp only [passHeader]
      by_cases hs : s = ""
      · rw [if_pos hs]
      · rw [if_neg hs]
        exact headerLookup_headerSet_ne h k k' s hne

/-- The client-visible `Content-Range` of a relayed success equals the
origin's, whenever the origin's value is not the (untransmittable) empty
string. -/
theorem respHeadersFor_content_range (resp : OriginResponse)
    (hcr : resp.content_range ≠ some "") :
    headerLookup (respHeadersFor resp) "Content-Range" = resp.content_range := by
  unfold respHeadersFor
  apply headerLookup_passHeader_self _ _ _ hcr
  rw [headerLookup_passHeader_ne _ _ _ _ (by decide)]
  rw [headerLookup_passHeader_ne _ _ _ _ (by decide)]
  rfl

/-- In the built upstream request, keys other than `Range` read as in the
domain-dependent header dict. -/
theorem build_proxy_headers_lookup_ne (url : String) (r : Option String)
    (k : String) (hk : k ≠ "Range") :
    headerLookup (build_proxy_headers url r) k = headerLookup (domain_headers url) k := by
  cases r with
  | none => rfl
  | some s =>
      simp only [build_proxy_headers]
      by_cases hs : s = ""
      · rw [if_pos hs]
      · rw [if_neg hs]
        exact headerLookup_headerSet_ne _ k "Range" s (fun hc => hk hc.symm)

/-! ## Claim theorems -/

/-- C1: any URL containing (case-insensitively) one of the forbidden patterns
`.mkv`, `.avi`, `.mp4`, `/movie/`, `/serie/`, `e98asvyr.okfsdo.xyz`,
`kcdrdbcx.upne.xyz` is classified not-direct by `can_use_direct`, regardless
of any direct-compatible suffix it may also have. -/
theorem forbidden_dominates (url : String)
    (h : ∃ pat ∈ forbidden_patterns, strContains (pyLower url) pat = true) :
    can_use_direct url = false := by
  unfold can_use_direct
  rw [if_pos]
  exact List.any_eq_true.mpr h

/-- C1 witness: the URL `https://x/movie/a.ts` ends with the
direct-compatible extension `.ts` and is still classified not-direct. -/
theorem forbidden_dominates_check :
    strEndsWith (pyLower "https://x/movie/a.ts") ".ts" = true ∧
    can_use_direct "https://x/movie/a.ts" = false :=
  ⟨by decide,
   forbidden_dominates "https://x/movie/a.ts" ⟨"/movie/", by decide, by decide⟩⟩

/-- C2 (code bug): `can_use_direct` classifies a `/serie/` URL as forbidden
for direct, but `direct_redirect`, whose inline pattern list (lines 50-52)
omits `/serie/`, answers a reachable `/serie/` URL with a 302 redirect instead
of the claimed 400 with a proxy suggestion. -/
theorem direct_serie_redirects_despite_forbidden :
    can_use_direct "https://host/serie/stream.m3u8" = false ∧
    (direct_redirect (some "https://host/serie/stream.m3u8") 0 [] true).response
      = DirectResponse.redirect "https://host/serie/stream.m3u8" ∧
    (direct_redirect (some "https://host/serie/stream.m3u8") 0 [] true).response.status
      = 302 := by
  exact ⟨by decide, rfl, rfl⟩

/-- C3: after recording verdict `v` at time `t0`, a lookup at `t0 + 299`
returns `v` without re-probing and leaves the cache unchanged, while a lookup
at `t0 + 301` ignores the stale entry and re-probes, overwriting it; the TTL
is the constant 300 seconds. -/
theorem cache_ttl_semantics (c : Cache) (url : String) (v : Bool) (t0 : Nat)
    (p p' : Bool) :
    CACHE_TTL = 300 ∧
    is_valid_stream_url url (t0 + 299) (cacheRecord c url (t0, v)) p
      = (v, cacheRecord c url (t0, v), false) ∧
    is_valid_stream_url url (t0 + 301) (cacheRecord c url (t0, v)) p'
      = (p', cacheRecord (cacheRecord c url (t0, v)) url (t0 + 301, p'), true) := by
  refine ⟨rfl, ?_, ?_⟩
  · unfold is_valid_stream_url
    rw [cacheLookup_cacheRecord_self]
    simp only [CACHE_TTL]
    have h1 : t0 + 299 - t0 < 300 := by omega
    rw [if_pos h1]
  · unfold is_valid_stream_url
    rw [cacheLookup_cacheRecord_self]
    simp only [CACHE_TTL]
    have h2 : ¬ (t0 + 301 - t0 < 300) := by omega
    rw [if_neg h2]

/-- C4: when the client supplies a (non-empty) `Range` header, the relay
forwards it to the origin unmodified, and an origin reply of 206 surfaces to
the client as status 206 (not 200) with a `Content-Range` identical to the
origin's (the origin's value being a real, non-empty header value). -/
theorem proxy_range_passthrough (url r : String) (resp : OriginResponse)
    (hu : url ≠ "") (hr : r ≠ "") (h206 : resp.code = 206)
    (hcr : resp.content_range ≠ some "") :
    headerLookup (proxy (some url) (some r) (.success resp)).reqHeaders "Range"
      = some r ∧
    (proxy (some url) (some r) (.success resp)).response.statusOf = 206 ∧
    (proxy (some url) (some r) (.success resp)).response.headerOf "Content-Range"
      = resp.content_range := by
  refine ⟨?_, ?_, ?_⟩
  · simp only [proxy, if_neg hu]
    simp only [build_proxy_headers, if_neg hr]
    exact headerLookup_headerSet_self _ "Range" r
  · simp only [proxy, if_neg hu, ProxyResponse.statusOf, hdrTruthy, h206]
    simp [hr]
  · simp only [proxy, if_neg hu, ProxyResponse.headerOf]
    exact respHeadersFor_content_range resp hcr

/-- C4 witness: at a concrete byte-range request against an origin answering
206 with `Content-Range: bytes 0-99/500`. -/
theorem proxy_range_passthrough_check :
    headerLookup (proxy (some "http://cdn.example/v.mkv") (some "bytes=0-99")
        (.success ⟨206, some "video/mp4", some "500", some "bytes",
          some "bytes 0-99/500", [1, 2, 3]⟩)).reqHeaders "Range"
      = some "bytes=0-99" ∧
    (proxy (some "http://cdn.example/v.mkv") (some "bytes=0-99")
        (.success ⟨206, some "video/mp4", some "500", some "bytes",
          some "bytes 0-99/500", [1, 2, 3]⟩)).response.statusOf = 206 ∧
    (proxy (some "http://cdn.example/v.mkv") (some "bytes=0-99")
        (.success ⟨206, some "video/mp4", some "500", some "bytes",
          some "bytes 0-99/500", [1, 2, 3]⟩)).response.headerOf "Content-Range"
      = some "bytes 0-99/500" :=
  proxy_range_passthrough "http://cdn.example/v.mkv" "bytes=0-99"
    ⟨206, some "video/mp4", some "500", some "bytes", some "bytes 0-99/500", [1, 2, 3]⟩
    (by decide) (by decide) rfl (by decide)

/-- C5: when the upstream request succeeds, the stream the relay returns is
exactly the generator's chunk list, and concatenating those chunks restores
the origin body byte-for-byte for every body; the chunk size constant is
32768. -/
theorem proxy_stream_chunks_concat (url : String) (hu : url ≠ "")
    (r : Option String) (resp : OriginResponse) :
    (proxy (some url) r (.success resp)).response.chunksOf
      = some (generate resp.body) ∧
    (generate resp.body).flatten = resp.body ∧
    chunk_size = 32768 := by
  refine ⟨?_, ?_, rfl⟩
  · simp only [proxy, if_neg hu, ProxyResponse.chunksOf]
  · rw [generate]
    exact readLoop_flatten _ _

/-- C5 witness: at a concrete relayed success. -/
theorem proxy_stream_chunks_concat_check :
    (proxy (some "http://cdn.example/a.ts") none
        (.success ⟨200, none, none, none, none, [7, 8, 9]⟩)).response.chunksOf
      = some (generate [7, 8, 9]) ∧
    (generate [7, 8, 9]).flatten = [7, 8, 9] ∧
    chunk_size = 32768 :=
  proxy_stream_chunks_concat "http://cdn.example/a.ts" (by decide) none
    ⟨200, none, none, none, none, [7, 8, 9]⟩

/-- C6: an upstream `HTTPError` or `URLError` before streaming yields a 502
JSON error naming the cause, any other exception yields a 500 with the
generic message, and in none of these cases is a streamed (success) response
returned. -/
theorem proxy_upstream_failure_status (url : String) (hu : url ≠ "")
    (r : Option String) (code : Nat) (reason econn msg : String) :
    (proxy (some url) r (.httpError code reason)).response
      = .json 502 ("Error HTTP " ++ toString code ++ ": " ++ reason) ∧
    (proxy (some url) r (.urlError econn)).response
      = .json 502 ("Error de conexión: " ++ econn) ∧
    (proxy (some url) r (.otherError msg)).response
      = .json 500 "Error interno en el proxy" := by
  refine ⟨?_, ?_, ?_⟩ <;> simp only [proxy, if_neg hu]

/-- C6 witness: at a concrete 404, a connection error, and an internal
error. -/
theorem proxy_upstream_failure_status_check :
    (proxy (some "http://cdn.example/a.ts") none (.httpError 404 "Not Found")).response
      = .json 502 ("Error HTTP " ++ toString 404 ++ ": " ++ "Not Found") ∧
    (proxy (some "http://cdn.example/a.ts") none (.urlError "timed out")).response
      = .json 502 ("Error de conexión: " ++ "timed out") ∧
    (proxy (some "http://cdn.example/a.ts") none (.otherError "boom")).response
      = .json 500 "Error interno en el proxy" :=
  proxy_upstream_failure_status "http://cdn.example/a.ts" (by decide) none
    404 "Not Found" "timed out" "boom"

/-- C7 counterexample: `https://KCDRDBCX.UPNE.XYZ/live/ch1.ts` matches the
configured hostname case-insensitively, yet the relay sends no `Referer` and
no `Origin` upstream, because the override test is case-sensitive. -/
theorem header_override_case_counterexample :
    strContains (pyLower "https://KCDRDBCX.UPNE.XYZ/live/ch1.ts") "kcdrdbcx.upne.xyz"
      = true ∧
    (proxy (some "https://KCDRDBCX.UPNE.XYZ/live/ch1.ts") none
        (.success ⟨200, none, none, none, none, []⟩)).requested = true ∧
    headerLookup (proxy (some "https://KCDRDBCX.UPNE.XYZ/live/ch1.ts") none
        (.success ⟨200, none, none, none, none, []⟩)).reqHeaders "Referer" = none ∧
    headerLookup (proxy (some "https://KCDRDBCX.UPNE.XYZ/live/ch1.ts") none
        (.success ⟨200, none, none, none, none, []⟩)).reqHeaders "Origin" = none := by
  decide

/-- C7 amended: the override matching is a case-sensitive substring test on
the raw URL (`kcdrdbcx.upne.xyz` checked first): exactly the URLs containing
a configured hostname in its original lowercase spelling get that origin's
`Referer`/`Origin` pair, and all other URLs are sent with no `Referer` or
`Origin` at all. -/
theorem header_override_case_sensitive (url : String) (r : Option String) :
    (strContains url "kcdrdbcx.upne.xyz" = true →
      headerLookup (build_proxy_headers url r) "Referer" = some "https://185.233.16.71/" ∧
      headerLookup (build_proxy_headers url r) "Origin" = some "https://185.233.16.71") ∧
    (strContains url "kcdrdbcx.upne.xyz" = false →
      strContains url "e98asvyr.okfsdo.xyz" = true →
      headerLookup (build_proxy_headers url r) "Referer" = some "http://185.233.16.71/" ∧
      headerLookup (build_proxy_headers url r) "Origin" = some "http://185.233.16.71") ∧
    (strContains url "kcdrdbcx.upne.xyz" = false →
      strContains url "e98asvyr.okfsdo.xyz" = false →
      headerLookup (build_proxy_headers url r) "Referer" = none ∧
      headerLookup (build_proxy_headers url r) "Origin" = none) := by
  refine ⟨?_, ?_, ?_⟩
  · intro h1
    rw [build_proxy_headers_lookup_ne url r "Referer" (by decide),
        build_proxy_headers_lookup_ne url r "Origin" (by decide)]
    unfold domain_headers
    rw [if_pos h1]
    constructor
    · rw [headerLookup_headerSet_ne _ _ _ _ (by decide)]
      exact headerLookup_headerSet_self _ _ _
    · exact headerLookup_headerSet_self _ _ _
  · intro h1 h2
    rw [build_proxy_headers_lookup_ne url r "Referer" (by decide),
        build_proxy_headers_lookup_ne url r "Origin" (by decide)]
    unfold domain_headers
    have hn1 : ¬ strContains url "kcdrdbcx.upne.xyz" = true := by simp [h1]
    rw [if_neg hn1, if_pos h2]
    constructor
    · rw [headerLookup_headerSet_ne _ _ _ _ (by decide)]
      exact headerLookup_headerSet_self _ _ _
    · exact headerLookup_headerSet_self _ _ _
  · intro h1 h2
    rw [build_proxy_headers_lookup_ne url r "Referer" (by decide),
        build_proxy_headers_lookup_ne url r "Origin" (by decide)]
    unfold domain_headers
    have hn1 : ¬ strContains url "kcdrdbcx.upne.xyz" = true := by simp [h1]
    have hn2 : ¬ strContains url "e98asvyr.okfsdo.xyz" = true := by simp [h2]
    rw [if_neg hn1, if_neg hn2]
    exact ⟨rfl, rfl⟩

/-- C7 amended witness: the lowercase spelling does get the override pair. -/
theorem header_override_case_sensitive_check :
    headerLookup (build_proxy_headers "https://kcdrdbcx.upne.xyz/live/ch1.ts" none)
      "Referer" = some "https://185.233.16.71/" ∧
    headerLookup (build_proxy_headers "https://kcdrdbcx.upne.xyz/live/ch1.ts" none)
      "Origin" = some "https://185.233.16.71" :=
  (header_override_case_sensitive "https://kcdrdbcx.upne.xyz/live/ch1.ts" none).1
    (by decide)

/-- C8 counterexample: a `/validate` request that completes its probe
(`probed = true`) starting from the empty cache leaves the cache empty — it
records nothing, not the claimed one entry. -/
theorem validate_records_nothing :
    (validate_url (some "http://cdn.example/live/ch1.ts") []
        (.ok (some "video/mp2t") (some "1000"))).probed = true ∧
    (validate_url (some "http://cdn.example/live/ch1.ts") []
        (.ok (some "video/mp2t") (some "1000"))).cache = [] :=
  ⟨rfl, rfl⟩

/-- C8 amended: `validate_url` never touches the validation cache at all —
no record of the probe outcome, no TTL change, no deletion: the cache after
any `/validate` request is exactly the cache before. -/
theorem validate_cache_unchanged (p : Option String) (c : Cache)
    (probe : ProbeResult) : (validate_url p c probe).cache = c := by
  cases p with
  | none => rfl
  | some url =>
      cases probe with
      | ok ct cl =>
          by_cases h : url = "" <;> simp [validate_url, h]
      | err msg =>
          by_cases h : url = "" <;> simp [validate_url, h]

/-- C9: a missing or empty `url` query parameter makes each of the three
handlers answer 400 with the error text `Parámetro 'url' requerido`, without
consuming its network oracle (no probe, no upstream request), for every
cache state and every oracle value. -/
theorem missing_url_param_rejected (p : Option String)
    (hp : p = none ∨ p = some "") (now : Nat) (c : Cache) (pr : Bool)
    (probe : ProbeResult) (r : Option String) (u : UpstreamResult) :
    (direct_redirect p now c pr).response
      = .badRequest ⟨URL_REQUIRED, none, none, none⟩ ∧
    (direct_redirect p now c pr).response.status = 400 ∧
    (direct_redirect p now c pr).probed = false ∧
    (direct_redirect p now c pr).cache = c ∧
    (validate_url p c probe).response = .badRequest URL_REQUIRED ∧
    (validate_url p c probe).response.status = 400 ∧
    (validate_url p c probe).probed = false ∧
    (proxy p r u).response = .json 400 URL_REQUIRED ∧
    (proxy p r u).requested = false := by
  rcases hp with rfl | rfl <;>
    exact ⟨rfl, rfl, rfl, rfl, rfl, rfl, rfl, rfl, rfl⟩

/-- C9 witness: at the absent parameter, for concrete oracles. -/
theorem missing_url_param_rejected_check :
    (direct_redirect none 0 [] true).response
      = .badRequest ⟨URL_REQUIRED, none, none, none⟩ ∧
    (direct_redirect none 0 [] true).response.status = 400 ∧
    (direct_redirect none 0 [] true).probed = false ∧
    (direct_redirect none 0 [] true).cache = [] ∧
    (validate_url none [] (.ok none none)).response = .badRequest URL_REQUIRED ∧
    (validate_url none [] (.ok none none)).response.status = 400 ∧
    (validate_url none [] (.ok none none)).probed = false ∧
    (proxy none none (.otherError "boom")).response = .json 400 URL_REQUIRED ∧
    (proxy none none (.otherError "boom")).requested = false :=
  missing_url_param_rejected none (Or.inl rfl) 0 [] true (.ok none none) none
    (.otherError "boom")

/-- C10: a non-empty URL that matches none of the direct handler's inline
forbidden patterns and whose validation succeeds is answered with the 302
redirect to itself — `/direct` never checks the direct-compatible extension
list, so URLs without a `.m3u8`/`.ts` suffix are redirected too. -/
theorem direct_no_extension_gate (url : String) (hu : url ≠ "")
    (hf : direct_forbidden url = false) (now : Nat) (c : Cache) (p : Bool)
    (hv : (is_valid_stream_url url now c p).1 = true) :
    (direct_redirect (some url) now c p).response = .redirect url := by
  simp only [direct_redirect, if_neg hu, hf, Bool.false_eq_true, if_false, hv,
    if_true]

/-- C10 witness: a reachable URL ending in `.html`, which is neither
`.m3u8` nor `.ts`, is 302-redirected. -/
theorem direct_no_extension_gate_check :
    strEndsWith (pyLower "https://cdn.example/stream/file.html") ".m3u8" = false ∧
    strEndsWith (pyLower "https://cdn.example/stream/file.html") ".ts" = false ∧
    (direct_redirect (some "https://cdn.example/stream/file.html") 0 [] true).response
      = .redirect "https://cdn.example/stream/file.html" :=
  ⟨by decide, by decide,
    direct_no_extension_gate "https://cdn.example/stream/file.html" (by decide)
      (by decide) 0 [] true (by decide)⟩

end DBStream
